import Mathlib

/-!
Verification development for the WhatsApp MCP contact/group query layer
(`whatsapp-mcp-server/contacts.py` and its `main.py` tool wrappers).

The relational store (`messages.db`) is embedded shallowly: each SQLite table
becomes a list of row structures, and each query function of `contacts.py`
becomes a Lean function over a `Store`. A connection or query failure
(`sqlite3.Error`) is modelled by the `Option Store` argument being `none`,
matching the `try/except` wrapper around every operation.

Modelling conventions, fixed once for the whole file:
- Timestamp columns (`first_seen`, `last_updated`, `last_message_date`,
  `joined_at`, `left_at`, `detected_at`, `last_mentioned`) are `Int` in an
  abstract linear time scale; SQLite compares ISO datetime strings
  lexicographically, which is order-isomorphic to this.
- REAL columns (`importance`, `importance_score`, `connection_strength`) are
  `Int`; the queries only compare and order them, never do arithmetic on them.
- Per the storage schema contract, only `left_at`, `category` and `notes` are
  nullable base columns; every other base column is non-null. Columns produced
  by a LEFT JOIN are `Option`-valued in the result records.
- Join keys declared unique by the schema (`contacts.jid` PK, `groups.jid` PK,
  `conversation_metrics.chat_jid` one row per chat, `contact_insights` zero or
  one per contact, `interesting_topics.keyword` UNIQUE, `chats.jid`) make a
  key-equality join a lookup; lookups use `List.find?` (first matching row,
  exactly what `fetchone` and a to-one join produce).
-/

namespace WhatsappMCP

/-- Row of the `contacts` table: `contacts(jid PK, full_name, push_name,
first_seen, last_updated)`. -/
structure ContactRow where
  jid : String
  full_name : String
  push_name : String
  first_seen : Int
  last_updated : Int
deriving DecidableEq, Repr

/-- Row of the `groups` table: `groups(jid PK, name, description)`. -/
structure GroupRow where
  jid : String
  name : String
  description : String
deriving DecidableEq, Repr

/-- Row of the `group_members` table: `group_members(group_jid, member_jid,
is_admin, is_super_admin, joined_at, left_at NULLABLE, added_by_jid)`.
`left_at = none` means the member is currently active. -/
structure GroupMemberRow where
  group_jid : String
  member_jid : String
  is_admin : Bool
  is_super_admin : Bool
  joined_at : Int
  left_at : Option Int
  added_by_jid : String
deriving DecidableEq, Repr

/-- Row of the `conversation_metrics` table: one row per chat key. -/
structure MetricsRow where
  chat_jid : String
  last_message_date : Int
  total_messages : Int
  messages_sent : Int
  messages_received : Int
deriving DecidableEq, Repr

/-- Row of the `contact_insights` table: zero or one per contact. -/
structure InsightRow where
  contact_jid : String
  connection_strength : Int
  relationship_status : String
  days_since_last_contact : Int
  mutual_group_count : Int
deriving DecidableEq, Repr

/-- Row of the `conversation_topics` table. -/
structure ConvTopicRow where
  chat_jid : String
  keyword : String
  mention_count : Int
  importance_score : Int
  last_mentioned : Int
deriving DecidableEq, Repr

/-- Row of the `interesting_topics` table; `id` is the SQLite rowid returned
through `cursor.lastrowid`, `keyword` is UNIQUE. -/
structure InterestingTopicRow where
  id : Nat
  keyword : String
  category : Option String
  importance : Int
  notify_on_mention : Bool
  notes : Option String
deriving DecidableEq, Repr

/-- Row of the `topic_alerts` table. -/
structure TopicAlertRow where
  topic_keyword : String
  chat_jid : String
  detected_at : Int
  acknowledged : Bool
deriving DecidableEq, Repr

/-- Row of the `chats` table: `chats(jid, name)`. -/
structure ChatRow where
  jid : String
  name : String
deriving DecidableEq, Repr

/-- The whole `messages.db` store consumed by `contacts.py`. -/
structure Store where
  contacts : List ContactRow
  groups : List GroupRow
  group_members : List GroupMemberRow
  conversation_metrics : List MetricsRow
  contact_insights : List InsightRow
  conversation_topics : List ConvTopicRow
  interesting_topics : List InterestingTopicRow
  topic_alerts : List TopicAlertRow
  chats : List ChatRow
deriving DecidableEq, Repr

/-- A store with no rows in any table. -/
def Store.empty : Store :=
  ⟨[], [], [], [], [], [], [], [], []⟩

/-- Insertion step of the sort embedding a SQL `ORDER BY`: place `a` before
the first element it compares no greater than. -/
def insertLe {α : Type} (le : α → α → Bool) (a : α) : List α → List α
  | [] => [a]
  | b :: l => if le a b then a :: b :: l else b :: insertLe le a l

/-- Sort embedding a SQL `ORDER BY` comparator: a sorted permutation of the
input rows (structural insertion sort, so concrete results evaluate). -/
def sortBy {α : Type} (le : α → α → Bool) : List α → List α
  | [] => []
  | a :: l => insertLe le a (sortBy le l)

/-- LEFT JOIN `conversation_metrics cm ON key = cm.chat_jid`: the schema has
one metrics row per chat key, so the join is a lookup of the first match. -/
def metricsFor (s : Store) (jid : String) : Option MetricsRow :=
  s.conversation_metrics.find? (fun m => m.chat_jid == jid)

/-- LEFT JOIN `contact_insights ci ON key = ci.contact_jid`: zero or one
insight row per contact, so the join is a lookup of the first match. -/
def insightFor (s : Store) (jid : String) : Option InsightRow :=
  s.contact_insights.find? (fun i => i.contact_jid == jid)

/-- Comparator for `ORDER BY last_message_date DESC NULLS LAST`: later dates
first, rows with no date at the end. -/
def dateDescNullsLast (a b : Option Int) : Bool :=
  match a, b with
  | some x, some y => decide (y ≤ x)
  | some _, none => true
  | none, some _ => false
  | none, none => true

/-- Result row of `get_all_contacts`: `c.*` plus the left-joined metrics and
insight columns selected by the query. -/
structure ContactRecord where
  jid : String
  full_name : String
  push_name : String
  first_seen : Int
  last_updated : Int
  last_message_date : Option Int
  total_messages : Option Int
  connection_strength : Option Int
  relationship_status : Option String
  days_since_last_contact : Option Int
deriving DecidableEq, Repr

/-- Row mapping of the `get_all_contacts` query for one contact. -/
def contactJoinRow (s : Store) (c : ContactRow) : ContactRecord :=
  let m := metricsFor s c.jid
  let i := insightFor s c.jid
  { jid := c.jid
    full_name := c.full_name
    push_name := c.push_name
    first_seen := c.first_seen
    last_updated := c.last_updated
    last_message_date := m.map (·.last_message_date)
    total_messages := m.map (·.total_messages)
    connection_strength := i.map (·.connection_strength)
    relationship_status := i.map (·.relationship_status)
    days_since_last_contact := i.map (·.days_since_last_contact) }

/-- Full ordered result of the `get_all_contacts` query before
`LIMIT ? OFFSET ?` is applied. -/
def contactsQuery (s : Store) : List ContactRecord :=
  sortBy
    (fun a b => dateDescNullsLast a.last_message_date b.last_message_date)
    (s.contacts.map (contactJoinRow s))

/-- `get_all_contacts(include_metrics, include_insights, limit, offset)`:
LEFT JOINs contacts to metrics and insights, orders by last message date
descending with NULLs last, applies OFFSET then LIMIT. On a storage failure
(`db = none`) it returns the empty list. The two include flags are accepted
but never read by the query. -/
def get_all_contacts (include_metrics : Bool) (include_insights : Bool)
    (limit : Nat) (offset : Nat) (db : Option Store) : List ContactRecord :=
  match db with
  | none => []
  | some s => ((contactsQuery s).drop offset).take limit

/-- Result row of `get_contact`: `c.*` plus all metrics and insight columns. -/
structure ContactDetail where
  jid : String
  full_name : String
  push_name : String
  first_seen : Int
  last_updated : Int
  last_message_date : Option Int
  total_messages : Option Int
  messages_sent : Option Int
  messages_received : Option Int
  connection_strength : Option Int
  relationship_status : Option String
  days_since_last_contact : Option Int
  mutual_group_count : Option Int
deriving DecidableEq, Repr

/-- Row mapping of the `get_contact` query for one contact. -/
def contactDetailRow (s : Store) (c : ContactRow) : ContactDetail :=
  let m := metricsFor s c.jid
  let i := insightFor s c.jid
  { jid := c.jid
    full_name := c.full_name
    push_name := c.push_name
    first_seen := c.first_seen
    last_updated := c.last_updated
    last_message_date := m.map (·.last_message_date)
    total_messages := m.map (·.total_messages)
    messages_sent := m.map (·.messages_sent)
    messages_received := m.map (·.messages_received)
    connection_strength := i.map (·.connection_strength)
    relationship_status := i.map (·.relationship_status)
    days_since_last_contact := i.map (·.days_since_last_contact)
    mutual_group_count := i.map (·.mutual_group_count) }

/-- `get_contact(jid)`: the same join filtered by `WHERE c.jid = ?` with
`fetchone`; `none` both when no row matches and on a storage failure. -/
def get_contact (jid : String) (db : Option Store) : Option ContactDetail :=
  match db with
  | none => none
  | some s =>
    match s.contacts.find? (fun c => c.jid == jid) with
    | none => none
    | some c => some (contactDetailRow s c)

/-- Active membership rows of one group: `group_members` rows with matching
`group_jid` and `left_at IS NULL`. -/
def activeMemberRows (s : Store) (jid : String) : List GroupMemberRow :=
  s.group_members.filter (fun r => r.group_jid == jid && r.left_at.isNone)

/-- All membership rows of one group, active and departed. -/
def allMemberRows (s : Store) (jid : String) : List GroupMemberRow :=
  s.group_members.filter (fun r => r.group_jid == jid)

/-- The live member count of a group as both group queries compute it:
`COUNT(DISTINCT gm.member_jid)` over the LEFT JOIN restricted to
`gm.left_at IS NULL` rows. -/
def currentMemberCount (s : Store) (jid : String) : Nat :=
  ((activeMemberRows s jid).map (·.member_jid)).dedup.length

/-- Rank used to embed a boolean `DESC` sort key: `true` sorts first. -/
def boolRank (b : Bool) : Nat :=
  if b then 0 else 1

/-- Lexicographic comparator on a three-part sort key, ascending in each
part. -/
def keyLe₃ (x y : Nat × Nat × Int) : Bool :=
  decide (x.1 < y.1) ||
    (x.1 == y.1 &&
      (decide (x.2.1 < y.2.1) ||
        (x.2.1 == y.2.1 && decide (x.2.2 ≤ y.2.2))))

/-- Lexicographic comparator on a four-part sort key, ascending in each
part. -/
def keyLe₄ (x y : Nat × Nat × Nat × Int) : Bool :=
  decide (x.1 < y.1) || (x.1 == y.1 && keyLe₃ x.2 y.2)

/-- Result row of the member sub-query of `get_all_groups`. -/
structure MemberRecord where
  member_jid : String
  full_name : Option String
  push_name : Option String
  is_admin : Bool
  is_super_admin : Bool
  joined_at : Int
deriving DecidableEq, Repr

/-- Row mapping of the member sub-query of `get_all_groups`: the LEFT JOIN to
`contacts` supplies the (nullable) names. -/
def memberRecordOf (s : Store) (r : GroupMemberRow) : MemberRecord :=
  let c := s.contacts.find? (fun c => c.jid == r.member_jid)
  { member_jid := r.member_jid
    full_name := c.map (·.full_name)
    push_name := c.map (·.push_name)
    is_admin := r.is_admin
    is_super_admin := r.is_super_admin
    joined_at := r.joined_at }

/-- Sort key of `ORDER BY gm.is_super_admin DESC, gm.is_admin DESC,
gm.joined_at ASC` on the member rows of the `get_all_groups` sub-query. -/
def memberListKey (m : MemberRecord) : Nat × Nat × Int :=
  (boolRank m.is_super_admin, boolRank m.is_admin, m.joined_at)

/-- Comparator realising the member ordering of `get_all_groups`. -/
def memberListLe (a b : MemberRecord) : Bool :=
  keyLe₃ (memberListKey a) (memberListKey b)

/-- Member roster attached by `get_all_groups` when `include_members` is set:
active memberships only, ordered super-admin first, then admin, then
ascending join time. -/
def groupListMembers (s : Store) (jid : String) : List MemberRecord :=
  sortBy memberListLe ((activeMemberRows s jid).map (memberRecordOf s))

/-- Result row of `get_all_groups`: `g.*`, the computed member count, and the
left-joined metrics columns; `members` is present only when requested. -/
structure GroupRecord where
  jid : String
  name : String
  description : String
  current_member_count : Nat
  total_messages : Option Int
  last_message_date : Option Int
  members : Option (List MemberRecord)
deriving DecidableEq, Repr

/-- Row mapping of the main `get_all_groups` query for one group. -/
def groupJoinRow (s : Store) (include_members : Bool) (g : GroupRow) :
    GroupRecord :=
  let m := metricsFor s g.jid
  { jid := g.jid
    name := g.name
    description := g.description
    current_member_count := currentMemberCount s g.jid
    total_messages := m.map (·.total_messages)
    last_message_date := m.map (·.last_message_date)
    members := if include_members then some (groupListMembers s g.jid) else none }

/-- Full ordered result of the `get_all_groups` query before
`LIMIT ? OFFSET ?` is applied. -/
def groupsQuery (s : Store) (include_members : Bool) : List GroupRecord :=
  sortBy
    (fun a b => dateDescNullsLast a.last_message_date b.last_message_date)
    (s.groups.map (groupJoinRow s include_members))

/-- `get_all_groups(include_members, limit, offset)`: groups joined with the
live member count and metrics, ordered by last message date descending with
NULLs last, OFFSET then LIMIT; a second per-group query attaches the active
member roster when `include_members` is set. Empty list on storage failure. -/
def get_all_groups (include_members : Bool) (limit : Nat) (offset : Nat)
    (db : Option Store) : List GroupRecord :=
  match db with
  | none => []
  | some s => ((groupsQuery s include_members).drop offset).take limit

/-- Result row of the member sub-query of `get_group_info`: adds `left_at`
and `added_by_jid` to the list form. -/
structure MemberDetail where
  member_jid : String
  full_name : Option String
  push_name : Option String
  is_admin : Bool
  is_super_admin : Bool
  joined_at : Int
  left_at : Option Int
  added_by_jid : String
deriving DecidableEq, Repr

/-- Row mapping of the member sub-query of `get_group_info`. -/
def memberDetailOf (s : Store) (r : GroupMemberRow) : MemberDetail :=
  let c := s.contacts.find? (fun c => c.jid == r.member_jid)
  { member_jid := r.member_jid
    full_name := c.map (·.full_name)
    push_name := c.map (·.push_name)
    is_admin := r.is_admin
    is_super_admin := r.is_super_admin
    joined_at := r.joined_at
    left_at := r.left_at
    added_by_jid := r.added_by_jid }

/-- Sort key of `ORDER BY gm.left_at IS NULL DESC, gm.is_super_admin DESC,
gm.is_admin DESC, gm.joined_at ASC` on the member rows of `get_group_info`. -/
def memberDetailKey (m : MemberDetail) : Nat × Nat × Nat × Int :=
  (boolRank m.left_at.isNone,
    boolRank m.is_super_admin, boolRank m.is_admin, m.joined_at)

/-- Comparator realising the member ordering of `get_group_info`. -/
def memberDetailLe (a b : MemberDetail) : Bool :=
  keyLe₄ (memberDetailKey a) (memberDetailKey b)

/-- Member roster attached by `get_group_info` when `include_members` is set:
all memberships (active and departed), active first, then super-admin, then
admin, then ascending join time. -/
def groupInfoMembers (s : Store) (jid : String) : List MemberDetail :=
  sortBy memberDetailLe ((allMemberRows s jid).map (memberDetailOf s))

/-- Result row of `get_group_info`. -/
structure GroupDetail where
  jid : String
  name : String
  description : String
  current_member_count : Nat
  total_messages : Option Int
  last_message_date : Option Int
  members : Option (List MemberDetail)
deriving DecidableEq, Repr

/-- `get_group_info(jid, include_members)`: the same aggregation as
`get_all_groups` filtered by `WHERE g.jid = ?` with `fetchone`; attaches the
full (active and departed) member roster when requested. `none` both when the
group does not exist and on storage failure. -/
def get_group_info (jid : String) (include_members : Bool)
    (db : Option Store) : Option GroupDetail :=
  match db with
  | none => none
  | some s =>
    match s.groups.find? (fun g => g.jid == jid) with
    | none => none
    | some g =>
      let m := metricsFor s g.jid
      some
        { jid := g.jid
          name := g.name
          description := g.description
          current_member_count := currentMemberCount s g.jid
          total_messages := m.map (·.total_messages)
          last_message_date := m.map (·.last_message_date)
          members :=
            if include_members then some (groupInfoMembers s g.jid) else none }

/-- Truthiness of an optional string argument, exactly as the Python guards
`if chat_jid:` and `if keyword:` see it: absent and empty strings are falsy. -/
def truthy (o : Option String) : Bool :=
  match o with
  | none => false
  | some s => !s.isEmpty

/-- SQLite `column LIKE ?` with a `%needle%` pattern: substring containment,
case-insensitive on ASCII letters (the default LIKE collation of SQLite). The
callers only build the pattern from a non-empty needle. -/
def likeContains (hay needle : String) : Bool :=
  (hay.toLower.splitOn needle.toLower).length != 1

/-- Result row of `get_conversation_topics`: `ct.*` plus the joined chat
name. -/
structure TopicRecord where
  chat_jid : String
  keyword : String
  mention_count : Int
  importance_score : Int
  last_mentioned : Int
  chat_name : String
deriving DecidableEq, Repr

/-- Inner join of one `conversation_topics` row to `chats` by key; a topic
whose chat is missing produces no row. -/
def topicJoinRow (s : Store) (ct : ConvTopicRow) : Option TopicRecord :=
  match s.chats.find? (fun c => c.jid == ct.chat_jid) with
  | none => none
  | some c =>
    some
      { chat_jid := ct.chat_jid
        keyword := ct.keyword
        mention_count := ct.mention_count
        importance_score := ct.importance_score
        last_mentioned := ct.last_mentioned
        chat_name := c.name }

/-- Comparator for `ORDER BY ct.importance_score DESC, ct.mention_count
DESC`. -/
def topicOrderLe (a b : TopicRecord) : Bool :=
  decide (b.importance_score < a.importance_score) ||
    (a.importance_score == b.importance_score &&
      decide (b.mention_count ≤ a.mention_count))

/-- `get_conversation_topics(chat_jid, keyword, limit, min_mentions)`: topics
joined to chats, filtered by `mention_count >= ?`, optionally (when the
argument is truthy) by exact chat match and LIKE substring match on the
keyword, ordered by importance then mentions descending, LIMIT applied.
Empty list on storage failure. -/
def get_conversation_topics (chat_jid : Option String)
    (keyword : Option String) (limit : Nat) (min_mentions : Int)
    (db : Option Store) : List TopicRecord :=
  match db with
  | none => []
  | some s =>
    (sortBy topicOrderLe
      ((s.conversation_topics.filterMap (topicJoinRow s)).filter
        (fun t =>
          decide (min_mentions ≤ t.mention_count) &&
          (if truthy chat_jid then t.chat_jid == chat_jid.getD "" else true) &&
          (if truthy keyword then likeContains t.keyword (keyword.getD "")
           else true)))).take limit

/-- Inner join `contacts JOIN conversation_metrics ON c.jid = cm.chat_jid`
shared by the activity segmenter: contacts with no metrics row are
excluded. -/
def contactMetricsJoin (s : Store) : List (ContactRow × MetricsRow) :=
  s.contacts.filterMap (fun c => (metricsFor s c.jid).map (fun m => (c, m)))

/-- The recency cutoff both segmenter queries compare against, built by the
datetime modifier subtracting `days` days: the evaluation time minus the
threshold. -/
def activeCutoff (now days : Int) : Int :=
  now - days

/-- The `get_active_contacts` WHERE predicate: the last message date is at
least the recency cutoff. -/
def activeCond (now days : Int) (p : ContactRow × MetricsRow) : Bool :=
  decide (activeCutoff now days ≤ p.2.last_message_date)

/-- The `get_dormant_contacts` WHERE predicate: the last message date is
strictly below the recency cutoff. -/
def dormantCond (now days : Int) (p : ContactRow × MetricsRow) : Bool :=
  decide (p.2.last_message_date < activeCutoff now days)

/-- Result row of `get_active_contacts`: `c.*` plus the inner-joined metrics
columns and the left-joined connection strength. -/
structure ActiveContactRecord where
  jid : String
  full_name : String
  push_name : String
  first_seen : Int
  last_updated : Int
  last_message_date : Int
  total_messages : Int
  connection_strength : Option Int
deriving DecidableEq, Repr

/-- Row mapping of the `get_active_contacts` query. -/
def activeRecordOf (s : Store) (p : ContactRow × MetricsRow) :
    ActiveContactRecord :=
  { jid := p.1.jid
    full_name := p.1.full_name
    push_name := p.1.push_name
    first_seen := p.1.first_seen
    last_updated := p.1.last_updated
    last_message_date := p.2.last_message_date
    total_messages := p.2.total_messages
    connection_strength := (insightFor s p.1.jid).map (·.connection_strength) }

/-- `get_active_contacts(days, limit)` evaluated at time `now`: inner join to
metrics, recency filter, ordered by last message date descending, LIMIT
applied. Empty list on storage failure. -/
def get_active_contacts (now days : Int) (limit : Nat) (db : Option Store) :
    List ActiveContactRecord :=
  match db with
  | none => []
  | some s =>
    (sortBy (fun a b => decide (b.last_message_date ≤ a.last_message_date))
      (((contactMetricsJoin s).filter (activeCond now days)).map
        (activeRecordOf s))).take limit

/-- Result row of `get_dormant_contacts`: adds the derived julianday
difference between the evaluation time and the last message date. -/
structure DormantContactRecord where
  jid : String
  full_name : String
  push_name : String
  first_seen : Int
  last_updated : Int
  last_message_date : Int
  days_since_last_message : Int
  connection_strength : Option Int
deriving DecidableEq, Repr

/-- Row mapping of the `get_dormant_contacts` query; the derived day count is
the difference between the evaluation time and the last message date. -/
def dormantRecordOf (s : Store) (now : Int) (p : ContactRow × MetricsRow) :
    DormantContactRecord :=
  { jid := p.1.jid
    full_name := p.1.full_name
    push_name := p.1.push_name
    first_seen := p.1.first_seen
    last_updated := p.1.last_updated
    last_message_date := p.2.last_message_date
    days_since_last_message := now - p.2.last_message_date
    connection_strength := (insightFor s p.1.jid).map (·.connection_strength) }

/-- `get_dormant_contacts(days, limit)` evaluated at time `now`: same join
shape as the active query with the reversed strict filter, ordered by last
message date ascending (most dormant first), LIMIT applied. Empty list on
storage failure. -/
def get_dormant_contacts (now days : Int) (limit : Nat) (db : Option Store) :
    List DormantContactRecord :=
  match db with
  | none => []
  | some s =>
    (sortBy (fun a b => decide (a.last_message_date ≤ b.last_message_date))
      (((contactMetricsJoin s).filter (dormantCond now days)).map
        (dormantRecordOf s now))).take limit

/-- Comparator for `ORDER BY importance DESC, keyword ASC` on
`interesting_topics`. -/
def interestingOrderLe (a b : InterestingTopicRow) : Bool :=
  decide (b.importance < a.importance) ||
    (a.importance == b.importance && decide (a.keyword ≤ b.keyword))

/-- `get_interesting_topics()`: all `interesting_topics` rows ordered by
importance descending then keyword ascending. Empty list on storage
failure. -/
def get_interesting_topics (db : Option Store) : List InterestingTopicRow :=
  match db with
  | none => []
  | some s => sortBy interestingOrderLe s.interesting_topics

/-- Result of `add_interesting_topic`: always a structured value with a
success flag and message, never a raised fault; `id` carries
`cursor.lastrowid` on success. -/
structure AddTopicResult where
  success : Bool
  message : String
  id : Option Nat
deriving DecidableEq, Repr

/-- The rowid SQLite assigns to the inserted row: one more than the largest
rowid in use. -/
def nextRowId (rows : List InterestingTopicRow) : Nat :=
  rows.foldl (fun acc r => max acc r.id) 0 + 1

/-- The `sqlite3.IntegrityError` message built by the except branch: the
keyword in single quotes followed by already exists. -/
def dupMessage (keyword : String) : String :=
  "Topic \x27" ++ keyword ++ "\x27 already exists"

/-- `add_interesting_topic(keyword, category, importance, notify_on_mention,
notes)`: INSERT into `interesting_topics`. The UNIQUE constraint on `keyword`
raises `sqlite3.IntegrityError` exactly when the keyword is already present,
answered by a structured duplicate failure with the store unchanged; any
other `sqlite3.Error` (storage failure, exception text abstracted) is a
structured generic failure. On success the result carries the new rowid.
Returns the result together with the store as left behind by the call. -/
def add_interesting_topic (keyword : String) (category : Option String)
    (importance : Int) (notify_on_mention : Bool) (notes : Option String)
    (db : Option Store) : AddTopicResult × Option Store :=
  match db with
  | none => ({ success := false, message := "Database error: ", id := none }, none)
  | some s =>
    if s.interesting_topics.any (fun t => t.keyword == keyword) then
      ({ success := false, message := dupMessage keyword, id := none }, some s)
    else
      let newId := nextRowId s.interesting_topics
      ({ success := true, message := "Added topic: " ++ keyword, id := some newId },
        some { s with
          interesting_topics :=
            s.interesting_topics ++
              [⟨newId, keyword, category, importance, notify_on_mention, notes⟩] })

/-- Result row of `get_topic_alerts`: `ta.*` plus the joined topic category
and importance and the joined chat name. -/
structure AlertRecord where
  topic_keyword : String
  chat_jid : String
  detected_at : Int
  acknowledged : Bool
  category : Option String
  importance : Int
  chat_name : String
deriving DecidableEq, Repr

/-- Inner joins of one alert row to `interesting_topics` (by keyword) and
`chats` (by key): an alert whose topic or chat is missing produces no row. -/
def alertJoinRow (s : Store) (ta : TopicAlertRow) : Option AlertRecord :=
  match s.interesting_topics.find? (fun it => it.keyword == ta.topic_keyword),
      s.chats.find? (fun c => c.jid == ta.chat_jid) with
  | some it, some c =>
    some
      { topic_keyword := ta.topic_keyword
        chat_jid := ta.chat_jid
        detected_at := ta.detected_at
        acknowledged := ta.acknowledged
        category := it.category
        importance := it.importance
        chat_name := c.name }
  | _, _ => none

/-- Comparator for `ORDER BY ta.detected_at DESC`. -/
def detectedDesc (a b : AlertRecord) : Bool :=
  decide (b.detected_at ≤ a.detected_at)

/-- Full ordered result of the `get_topic_alerts` query before LIMIT. -/
def alertsQuery (s : Store) (acknowledged : Bool) : List AlertRecord :=
  sortBy detectedDesc
    ((s.topic_alerts.filterMap (alertJoinRow s)).filter
      (fun a => a.acknowledged == acknowledged))

/-- `get_topic_alerts(acknowledged, limit)`: alerts inner-joined to their
topic and chat, filtered by the acknowledgement flag, ordered by detection
time descending, LIMIT applied. Empty list on storage failure. -/
def get_topic_alerts (acknowledged : Bool) (limit : Nat) (db : Option Store) :
    List AlertRecord :=
  match db with
  | none => []
  | some s => (alertsQuery s acknowledged).take limit

/-- The `list_all_contacts` MCP tool of `main.py`: passes its four arguments
straight through to `get_all_contacts`. -/
def list_all_contacts (include_metrics : Bool) (include_insights : Bool)
    (limit : Nat) (offset : Nat) (db : Option Store) : List ContactRecord :=
  get_all_contacts include_metrics include_insights limit offset db

/-- The ordering contract of the `get_all_groups` member roster, spelled out
on the result records: super-admins first, then admins, then ascending join
time. -/
def memberListOrdered (a b : MemberRecord) : Prop :=
  (a.is_super_admin = true ∧ b.is_super_admin = false) ∨
    (a.is_super_admin = b.is_super_admin ∧
      ((a.is_admin = true ∧ b.is_admin = false) ∨
        (a.is_admin = b.is_admin ∧ a.joined_at ≤ b.joined_at)))

/-- The ordering contract of the `get_group_info` member roster, spelled out
on the result records: active members before departed ones, then super-admins
first, then admins, then ascending join time. -/
def memberDetailOrdered (a b : MemberDetail) : Prop :=
  (a.left_at.isNone = true ∧ b.left_at.isNone = false) ∨
    (a.left_at.isNone = b.left_at.isNone ∧
      ((a.is_super_admin = true ∧ b.is_super_admin = false) ∨
        (a.is_super_admin = b.is_super_admin ∧
          ((a.is_admin = true ∧ b.is_admin = false) ∨
            (a.is_admin = b.is_admin ∧ a.joined_at ≤ b.joined_at)))))

/-- Concrete fixture store used by the witness theorems: three contacts (two
with metrics, one with insights), one group with two active members and one
departed member, one tracked topic, and four alerts of which exactly one has
both a live topic and a live chat and is unacknowledged. -/
def exStore : Store :=
  { contacts :=
      [⟨"a@s", "Alice", "Al", 1, 2⟩, ⟨"b@s", "Bob", "B", 1, 2⟩,
        ⟨"c@s", "Cara", "C", 1, 2⟩]
    groups := [⟨"g@g.us", "Group", "about"⟩]
    group_members :=
      [⟨"g@g.us", "a@s", true, false, 10, none, "b@s"⟩,
        ⟨"g@g.us", "b@s", false, true, 20, none, "b@s"⟩,
        ⟨"g@g.us", "c@s", false, false, 5, some 30, "b@s"⟩]
    conversation_metrics := [⟨"a@s", 100, 5, 2, 3⟩, ⟨"b@s", 50, 1, 1, 0⟩]
    contact_insights := [⟨"a@s", 7, "close", 3, 2⟩]
    conversation_topics := [⟨"a@s", "lunch", 3, 5, 90⟩]
    interesting_topics := [⟨1, "budget", none, 1, false, none⟩]
    topic_alerts :=
      [⟨"budget", "a@s", 7, false⟩, ⟨"gone", "a@s", 9, false⟩,
        ⟨"budget", "x@s", 8, false⟩, ⟨"budget", "a@s", 6, true⟩]
    chats := [⟨"a@s", "AliceChat"⟩] }

/-- The record `get_all_contacts` produces for Alice in `exStore`. -/
def exContactRecord : ContactRecord :=
  { jid := "a@s", full_name := "Alice", push_name := "Al", first_seen := 1
    last_updated := 2, last_message_date := some 100, total_messages := some 5
    connection_strength := some 7, relationship_status := some "close"
    days_since_last_contact := some 3 }

/-- The record `get_all_groups` produces for the group in `exStore` when
members are included. -/
def exGroupRecord : GroupRecord :=
  { jid := "g@g.us", name := "Group", description := "about"
    current_member_count := 2, total_messages := none
    last_message_date := none
    members := some
      [⟨"b@s", some "Bob", some "B", false, true, 20⟩,
        ⟨"a@s", some "Alice", some "Al", true, false, 10⟩] }

/-- The record `get_group_info` produces for the group in `exStore` when
members are included. -/
def exGroupDetail : GroupDetail :=
  { jid := "g@g.us", name := "Group", description := "about"
    current_member_count := 2, total_messages := none
    last_message_date := none
    members := some
      [⟨"b@s", some "Bob", some "B", false, true, 20, none, "b@s"⟩,
        ⟨"a@s", some "Alice", some "Al", true, false, 10, none, "b@s"⟩,
        ⟨"c@s", some "Cara", some "C", false, false, 5, some 30, "b@s"⟩] }

/-- The single record `get_topic_alerts false` produces from `exStore`. -/
def exAlertRecord : AlertRecord :=
  { topic_keyword := "budget", chat_jid := "a@s", detected_at := 7
    acknowledged := false, category := none, importance := 1
    chat_name := "AliceChat" }

/-- The joined row of Alice and her metrics in `contactMetricsJoin exStore`. -/
def exJoinPair : ContactRow × MetricsRow :=
  (⟨"a@s", "Alice", "Al", 1, 2⟩, ⟨"a@s", 100, 5, 2, 3⟩)

/-- Inserting an element is a permutation of consing it. -/
theorem insertLe_perm {α : Type} (le : α → α → Bool) (a : α) (l : List α) :
    (insertLe le a l).Perm (a :: l) := by
  induction l with
  | nil => simp [insertLe]
  | cons b l ih =>
    simp only [insertLe]
    by_cases h : le a b
    · simp [h]
    · rw [if_neg h]
      exact (ih.cons b).trans (List.Perm.swap a b l)

/-- Sorting yields a permutation of the input. -/
theorem sortBy_perm {α : Type} (le : α → α → Bool) (l : List α) :
    (sortBy le l).Perm l := by
  induction l with
  | nil => simp [sortBy]
  | cons a l ih => exact (insertLe_perm le a (sortBy le l)).trans (ih.cons a)

/-- Membership is preserved by sorting. -/
theorem mem_sortBy {α : Type} {le : α → α → Bool} {a : α} {l : List α} :
    a ∈ sortBy le l ↔ a ∈ l :=
  (sortBy_perm le l).mem_iff

/-- Inserting into a sorted list keeps it sorted, for a transitive and total
comparator. -/
theorem pairwise_insertLe {α : Type} {le : α → α → Bool}
    (htrans : ∀ a b c, le a b = true → le b c = true → le a c = true)
    (htotal : ∀ a b, le a b = true ∨ le b a = true)
    (a : α) {l : List α} (h : l.Pairwise (fun x y => le x y = true)) :
    (insertLe le a l).Pairwise (fun x y => le x y = true) := by
  induction l with
  | nil => simp [insertLe]
  | cons b l ih =>
    rw [List.pairwise_cons] at h
    obtain ⟨hb, hl⟩ := h
    simp only [insertLe]
    by_cases hab : le a b = true
    · rw [if_pos hab]
      refine List.Pairwise.cons ?_ (List.Pairwise.cons hb hl)
      intro y hy
      rcases List.mem_cons.mp hy with rfl | hy'
      · exact hab
      · exact htrans a b y hab (hb y hy')
    · rw [if_neg hab]
      refine List.Pairwise.cons ?_ (ih hl)
      intro y hy
      rcases List.mem_cons.mp ((insertLe_perm le a l).mem_iff.mp hy) with h | hy'
      · rw [h]
        exact (htotal a b).resolve_left hab
      · exact hb y hy'

/-- The sort is sorted, for a transitive and total comparator. -/
theorem pairwise_sortBy {α : Type} {le : α → α → Bool}
    (htrans : ∀ a b c, le a b = true → le b c = true → le a c = true)
    (htotal : ∀ a b, le a b = true ∨ le b a = true)
    (l : List α) :
    (sortBy le l).Pairwise (fun x y => le x y = true) := by
  induction l with
  | nil => simp [sortBy]
  | cons a l ih => exact pairwise_insertLe htrans htotal a ih

/-- The three-part lexicographic comparator is transitive. -/
theorem keyLe₃_trans (x y z : Nat × Nat × Int)
    (hxy : keyLe₃ x y = true) (hyz : keyLe₃ y z = true) : keyLe₃ x z = true := by
  simp only [keyLe₃, Bool.or_eq_true, Bool.and_eq_true, decide_eq_true_eq,
    beq_iff_eq] at hxy hyz ⊢
  omega

/-- The three-part lexicographic comparator is total. -/
theorem keyLe₃_total (x y : Nat × Nat × Int) :
    keyLe₃ x y = true ∨ keyLe₃ y x = true := by
  simp only [keyLe₃, Bool.or_eq_true, Bool.and_eq_true, decide_eq_true_eq,
    beq_iff_eq]
  omega

/-- The four-part lexicographic comparator is transitive. -/
theorem keyLe₄_trans (x y z : Nat × Nat × Nat × Int)
    (hxy : keyLe₄ x y = true) (hyz : keyLe₄ y z = true) : keyLe₄ x z = true := by
  simp only [keyLe₄, keyLe₃, Bool.or_eq_true, Bool.and_eq_true,
    decide_eq_true_eq, beq_iff_eq] at hxy hyz ⊢
  omega

/-- The four-part lexicographic comparator is total. -/
theorem keyLe₄_total (x y : Nat × Nat × Nat × Int) :
    keyLe₄ x y = true ∨ keyLe₄ y x = true := by
  simp only [keyLe₄, keyLe₃, Bool.or_eq_true, Bool.and_eq_true,
    decide_eq_true_eq, beq_iff_eq]
  omega

/-- A key that occurs in a duplicate-free list of keys is hit by exactly one
row. -/
theorem length_filter_eq_one_of_nodup_map {α β : Type} [DecidableEq β]
    (f : α → β) {l : List α} {b : β}
    (hnd : (l.map f).Nodup) (hmem : b ∈ l.map f) :
    (l.filter (fun a => f a == b)).length = 1 := by
  induction l with
  | nil => simp at hmem
  | cons x xs ih =>
    rw [List.map_cons, List.nodup_cons] at hnd
    obtain ⟨hx, hnd'⟩ := hnd
    rw [List.map_cons, List.mem_cons] at hmem
    rcases hmem with rfl | hmem'
    · have hnil : xs.filter (fun a => f a == f x) = [] := by
        rw [List.filter_eq_nil_iff]
        intro a ha hfa
        rw [beq_iff_eq] at hfa
        exact hx (hfa ▸ List.mem_map_of_mem f ha)
      simp [List.filter_cons, hnil]
    · have hxb : (f x == b) = false := by
        rw [beq_eq_false_iff_ne]
        intro h
        exact hx (h ▸ hmem')
      rw [List.filter_cons, if_neg (by simp [hxb])]
      exact ih hnd' hmem'

/-- Every record of a sorted-and-paginated query result comes from the
underlying row list. -/
theorem mem_of_paginate {α : Type} {le : α → α → Bool} {l : List α} {a : α}
    {limit offset : Nat}
    (h : a ∈ ((sortBy le l).drop offset).take limit) : a ∈ l :=
  mem_sortBy.mp (List.drop_subset _ _ (List.take_subset _ _ h))

/-- The `get_all_groups` member comparator is transitive. -/
theorem memberListLe_trans : ∀ a b c : MemberRecord,
    memberListLe a b = true → memberListLe b c = true →
    memberListLe a c = true :=
  fun _ _ _ hab hbc => keyLe₃_trans _ _ _ hab hbc

/-- The `get_all_groups` member comparator is total. -/
theorem memberListLe_total : ∀ a b : MemberRecord,
    memberListLe a b = true ∨ memberListLe b a = true :=
  fun _ _ => keyLe₃_total _ _

/-- The `get_group_info` member comparator is transitive. -/
theorem memberDetailLe_trans : ∀ a b c : MemberDetail,
    memberDetailLe a b = true → memberDetailLe b c = true →
    memberDetailLe a c = true :=
  fun _ _ _ hab hbc => keyLe₄_trans _ _ _ hab hbc

/-- The `get_group_info` member comparator is total. -/
theorem memberDetailLe_total : ∀ a b : MemberDetail,
    memberDetailLe a b = true ∨ memberDetailLe b a = true :=
  fun _ _ => keyLe₄_total _ _

/-- The detection-time comparator is transitive. -/
theorem detectedDesc_trans : ∀ a b c : AlertRecord,
    detectedDesc a b = true → detectedDesc b c = true →
    detectedDesc a c = true := by
  intro a b c hab hbc
  simp only [detectedDesc, decide_eq_true_eq] at hab hbc ⊢
  omega

/-- The detection-time comparator is total. -/
theorem detectedDesc_total : ∀ a b : AlertRecord,
    detectedDesc a b = true ∨ detectedDesc b a = true := by
  intro a b
  simp only [detectedDesc, decide_eq_true_eq]
  omega

/-- The list-form member comparator implies the spelled-out ordering
contract. -/
theorem memberListOrdered_of_le {a b : MemberRecord}
    (h : memberListLe a b = true) : memberListOrdered a b := by
  unfold memberListLe memberListKey keyLe₃ boolRank at h
  unfold memberListOrdered
  cases h3 : a.is_super_admin <;> cases h4 : b.is_super_admin <;>
    cases h5 : a.is_admin <;> cases h6 : b.is_admin <;>
    simp_all

/-- The detail-form member comparator implies the spelled-out ordering
contract. -/
theorem memberDetailOrdered_of_le {a b : MemberDetail}
    (h : memberDetailLe a b = true) : memberDetailOrdered a b := by
  unfold memberDetailLe memberDetailKey keyLe₄ keyLe₃ boolRank at h
  unfold memberDetailOrdered
  cases h1 : a.left_at.isNone <;> cases h2 : b.left_at.isNone <;>
    cases h3 : a.is_super_admin <;> cases h4 : b.is_super_admin <;>
    cases h5 : a.is_admin <;> cases h6 : b.is_admin <;>
    simp_all

/-- Two consecutive pagination windows over a duplicate-free list are
disjoint and together form the doubled-size window. -/
theorem paginate_window {α : Type} {L : List α} (hnd : L.Nodup) (n k : Nat) :
    ((L.drop k).take n).Disjoint ((L.drop (k + n)).take n) ∧
    (L.drop k).take n ++ (L.drop (k + n)).take n = (L.drop k).take (n + n) := by
  have hdd : L.drop (k + n) = (L.drop k).drop n := by
    rw [List.drop_drop, Nat.add_comm]
  have hM : (L.drop k).Nodup := (List.drop_sublist _ _).nodup hnd
  constructor
  · intro a ha hb
    rw [hdd] at hb
    exact List.disjoint_take_drop hM (Nat.le_refl n) ha
      (List.take_subset _ _ hb)
  · rw [hdd, ← List.take_add]

/-- C10: for every store state, limit and offset, and any two assignments of
the `include_metrics` and `include_insights` flags, `list_all_contacts` (and
the underlying `get_all_contacts`) returns identical results: the flags have
no effect on the output, whose records always carry the metrics and insight
columns. -/
theorem c10_include_flags_have_no_effect (im₁ ii₁ im₂ ii₂ : Bool)
    (limit offset : Nat) (db : Option Store) :
    list_all_contacts im₁ ii₁ limit offset db =
        list_all_contacts im₂ ii₂ limit offset db ∧
      get_all_contacts im₁ ii₁ limit offset db =
        get_all_contacts im₂ ii₂ limit offset db :=
  ⟨rfl, rfl⟩

/-- C4: when the storage layer fails, every list operation returns the empty
sequence and both get operations return `none`; a get against an available
store holding no matching row is the same `none`, so callers cannot tell
"not found" from "store unreachable". -/
theorem c4_storage_failure_degrades (im ii incm : Bool) (limit offset : Nat)
    (jid : String) (chat_jid keyword : Option String) (min_mentions : Int)
    (now days : Int) (ack : Bool) (s : Store)
    (hc : ∀ c ∈ s.contacts, c.jid ≠ jid)
    (hg : ∀ g ∈ s.groups, g.jid ≠ jid) :
    get_all_contacts im ii limit offset none = [] ∧
    get_all_groups incm limit offset none = [] ∧
    get_conversation_topics chat_jid keyword limit min_mentions none = [] ∧
    get_active_contacts now days limit none = [] ∧
    get_dormant_contacts now days limit none = [] ∧
    get_interesting_topics none = [] ∧
    get_topic_alerts ack limit none = [] ∧
    get_contact jid none = none ∧
    get_group_info jid incm none = none ∧
    get_contact jid (some s) = get_contact jid none ∧
    get_group_info jid incm (some s) = get_group_info jid incm none := by
  refine ⟨rfl, rfl, rfl, rfl, rfl, rfl, rfl, rfl, rfl, ?_, ?_⟩
  · have hfind : s.contacts.find? (fun c => c.jid == jid) = none := by
      rw [List.find?_eq_none]
      intro c hcmem
      simpa using hc c hcmem
    simp [get_contact, hfind]
  · have hfind : s.groups.find? (fun g => g.jid == jid) = none := by
      rw [List.find?_eq_none]
      intro g hgmem
      simpa using hg g hgmem
    simp [get_group_info, hfind]

/-- Witness for C4: the fixture store has no contact or group `z@s`, and a
lookup of it on the live store equals the lookup on a failed store. -/
theorem c4_witness :
    (∀ c ∈ exStore.contacts, c.jid ≠ "z@s") ∧
    get_contact "z@s" (some exStore) = get_contact "z@s" none := by
  refine ⟨by decide, ?_⟩
  exact (c4_storage_failure_degrades true true true 5 0 "z@s" none none 0 0 0
    false exStore (by decide) (by decide)).2.2.2.2.2.2.2.2.2.1

/-- C2: for a fixed threshold `days` and evaluation time `now`, a
contact-with-metrics row satisfies the active-query predicate iff it does not
satisfy the dormant-query predicate: the two segmenter queries partition the
metrics-bearing contact population. -/
theorem c2_active_dormant_partition (now days : Int) (s : Store)
    (p : ContactRow × MetricsRow) (hp : p ∈ contactMetricsJoin s) :
    (p ∈ (contactMetricsJoin s).filter (activeCond now days) ↔
      p ∉ (contactMetricsJoin s).filter (dormantCond now days)) ∧
    (activeCond now days p = true ↔ ¬dormantCond now days p = true) := by
  constructor
  · rw [List.mem_filter, List.mem_filter]
    simp only [activeCond, dormantCond, activeCutoff, decide_eq_true_eq]
    constructor
    · rintro ⟨_, hge⟩ ⟨_, hlt⟩
      omega
    · intro h
      refine ⟨hp, ?_⟩
      by_contra hge
      exact h ⟨hp, by omega⟩
  · simp only [activeCond, dormantCond, activeCutoff, decide_eq_true_eq]
    exact Int.not_lt.symm

/-- Witness for C2: Alice (last message at 100) against now = 100, days =
30. -/
theorem c2_witness :
    exJoinPair ∈ contactMetricsJoin exStore ∧
    (exJoinPair ∈ (contactMetricsJoin exStore).filter (activeCond 100 30) ↔
      exJoinPair ∉ (contactMetricsJoin exStore).filter (dormantCond 100 30)) :=
  ⟨by decide,
    (c2_active_dormant_partition 100 30 exStore exJoinPair (by decide)).1⟩

/-- C1: on a store whose tracked keywords are unique (the UNIQUE constraint),
adding an already-tracked keyword returns a structured duplicate failure —
never a raised fault — and a subsequent `get_interesting_topics` holds
exactly one row with that keyword; adding a fresh keyword succeeds and
returns the newly assigned row id. -/
theorem c1_add_tracked_topic (s : Store) (kw₁ kw₂ : String)
    (category : Option String) (importance : Int) (notify : Bool)
    (nts : Option String)
    (huniq : (s.interesting_topics.map (fun t => t.keyword)).Nodup)
    (h₁ : kw₁ ∈ s.interesting_topics.map (fun t => t.keyword))
    (h₂ : kw₂ ∉ s.interesting_topics.map (fun t => t.keyword)) :
    (add_interesting_topic kw₁ category importance notify nts
        (some s)).1.success = false ∧
    (add_interesting_topic kw₁ category importance notify nts
        (some s)).1.message = dupMessage kw₁ ∧
    ((get_interesting_topics
          (add_interesting_topic kw₁ category importance notify nts
            (some s)).2).filter
        (fun t => t.keyword == kw₁)).length = 1 ∧
    (add_interesting_topic kw₂ category importance notify nts
        (some s)).1.success = true ∧
    (add_interesting_topic kw₂ category importance notify nts
        (some s)).1.id = some (nextRowId s.interesting_topics) := by
  have hany₁ : s.interesting_topics.any (fun t => t.keyword == kw₁) = true := by
    rw [List.any_eq_true]
    obtain ⟨t, ht, hkw⟩ := List.mem_map.mp h₁
    exact ⟨t, ht, by simp [hkw]⟩
  have hany₂ : s.interesting_topics.any (fun t => t.keyword == kw₂) = false := by
    rw [← Bool.not_eq_true, List.any_eq_true]
    rintro ⟨t, ht, hkw⟩
    exact h₂ (List.mem_map.mpr ⟨t, ht, by simpa using hkw⟩)
  refine ⟨?_, ?_, ?_, ?_, ?_⟩
  · simp [add_interesting_topic, hany₁]
  · simp [add_interesting_topic, hany₁]
  · have h2eq :
        (add_interesting_topic kw₁ category importance notify nts (some s)).2 =
          some s := by
      simp [add_interesting_topic, hany₁]
    rw [h2eq]
    have hperm :=
      (sortBy_perm interestingOrderLe s.interesting_topics).filter
        (fun t => t.keyword == kw₁)
    simp only [get_interesting_topics]
    rw [hperm.length_eq]
    exact length_filter_eq_one_of_nodup_map
      (fun t : InterestingTopicRow => t.keyword) huniq h₁
  · simp [add_interesting_topic, hany₂]
  · simp [add_interesting_topic, hany₂]

/-- Witness for C1: the fixture store tracks `budget` uniquely; adding it
again fails while adding `tax` succeeds with the next rowid. -/
theorem c1_witness :
    ("budget" ∈ exStore.interesting_topics.map (fun t => t.keyword)) ∧
    (add_interesting_topic "budget" none 1 false none
        (some exStore)).1.success = false ∧
    (add_interesting_topic "tax" none 1 false none
        (some exStore)).1.success = true := by
  have h := c1_add_tracked_topic exStore "budget" "tax" none 1 false none
    (by decide) (by decide) (by decide)
  exact ⟨by decide, h.1, h.2.2.2.1⟩

/-- C3: for every group record returned by `get_all_groups` or
`get_group_info`, `current_member_count` equals the number of
`group_members` rows of that group whose `left_at` is null, given the
composite-key invariant that no member has two active membership rows in the
same group. -/
theorem c3_current_member_count (s : Store) (im : Bool) (limit offset : Nat)
    (jid : String) (g : GroupRecord) (gd : GroupDetail)
    (hmem : g ∈ get_all_groups im limit offset (some s))
    (hinfo : get_group_info jid im (some s) = some gd)
    (hnd : ((activeMemberRows s g.jid).map (fun r => r.member_jid)).Nodup)
    (hnd' : ((activeMemberRows s gd.jid).map (fun r => r.member_jid)).Nodup) :
    g.current_member_count = (activeMemberRows s g.jid).length ∧
    gd.current_member_count = (activeMemberRows s gd.jid).length := by
  have key : ∀ j : String,
      ((activeMemberRows s j).map (fun r => r.member_jid)).Nodup →
      currentMemberCount s j = (activeMemberRows s j).length := by
    intro j hj
    unfold currentMemberCount
    rw [List.dedup_eq_self.mpr hj, List.length_map]
  constructor
  · have hg' : g ∈ s.groups.map (groupJoinRow s im) := by
      simp only [get_all_groups, groupsQuery] at hmem
      exact mem_of_paginate hmem
    obtain ⟨g₀, hg₀, hrow⟩ := List.mem_map.mp hg'
    have hjid : g.jid = g₀.jid := by
      rw [← hrow]
      simp [groupJoinRow]
    have hcnt : g.current_member_count = currentMemberCount s g₀.jid := by
      rw [← hrow]
      simp [groupJoinRow]
    rw [hcnt, ← hjid]
    exact key g.jid hnd
  · rcases hfind : s.groups.find? (fun g0 => g0.jid == jid) with _ | g₀
    · simp [get_group_info, hfind] at hinfo
    · simp only [get_group_info, hfind] at hinfo
      rw [Option.some_inj] at hinfo
      have hjid : gd.jid = g₀.jid := by rw [← hinfo]
      have hcnt : gd.current_member_count = currentMemberCount s g₀.jid := by
        rw [← hinfo]
      rw [hcnt, ← hjid]
      exact key gd.jid hnd'

/-- Witness for C3 at the fixture store: the group record and detail both
report 2, the number of active membership rows. -/
theorem c3_witness :
    exGroupRecord ∈ get_all_groups true 10 0 (some exStore) ∧
    exGroupRecord.current_member_count =
      (activeMemberRows exStore exGroupRecord.jid).length := by
  refine ⟨by decide, ?_⟩
  exact (c3_current_member_count exStore true 10 0 "g@g.us" exGroupRecord
    exGroupDetail (by decide) (by decide) (by decide) (by decide)).1

/-- C5: for all limit and offset, `get_all_contacts` and `get_all_groups`
return at most `limit` records; and two consecutive windows (offset k /
limit n, then offset k+n / limit n) are disjoint and concatenate to the
window of doubled limit — a consistent prefix of the full ordering — given
distinct sort keys. -/
theorem c5_pagination (im ii incm : Bool) (s : Store) (limit offset n k : Nat)
    (hc : ((contactsQuery s).map (fun r => r.last_message_date)).Nodup)
    (hg : ((groupsQuery s incm).map (fun r => r.last_message_date)).Nodup) :
    (get_all_contacts im ii limit offset (some s)).length ≤ limit ∧
    (get_all_groups incm limit offset (some s)).length ≤ limit ∧
    (get_all_contacts im ii n k (some s)).Disjoint
      (get_all_contacts im ii n (k + n) (some s)) ∧
    get_all_contacts im ii n k (some s) ++
        get_all_contacts im ii n (k + n) (some s) =
      get_all_contacts im ii (n + n) k (some s) ∧
    (get_all_groups incm n k (some s)).Disjoint
      (get_all_groups incm n (k + n) (some s)) ∧
    get_all_groups incm n k (some s) ++
        get_all_groups incm n (k + n) (some s) =
      get_all_groups incm (n + n) k (some s) := by
  have hcN : (contactsQuery s).Nodup := List.Nodup.of_map _ hc
  have hgN : (groupsQuery s incm).Nodup := List.Nodup.of_map _ hg
  have wc := paginate_window hcN n k
  have wg := paginate_window hgN n k
  simp only [get_all_contacts, get_all_groups]
  refine ⟨?_, ?_, wc.1, wc.2, wg.1, wg.2⟩
  · rw [List.length_take]
    exact Nat.min_le_left _ _
  · rw [List.length_take]
    exact Nat.min_le_left _ _

/-- Witness for C5: the fixture store has distinct contact and group sort
keys, and the windows of size 2 at offsets 0 and 2 are disjoint. -/
theorem c5_witness :
    ((contactsQuery exStore).map (fun r => r.last_message_date)).Nodup ∧
    (get_all_contacts true true 2 0 (some exStore)).Disjoint
      (get_all_contacts true true 2 2 (some exStore)) := by
  refine ⟨by decide, ?_⟩
  exact (c5_pagination true true true exStore 2 0 2 0 (by decide)
    (by decide)).2.2.1

/-- C6: a jid appearing in a `get_all_contacts` record resolves through
`get_contact` to a record with that very jid, while a jid with no contacts
row resolves (with storage available) to `none`. -/
theorem c6_get_contact_consistency (s : Store) (im ii : Bool)
    (limit offset : Nat) (jid₁ jid₂ : String) (r : ContactRecord)
    (hr : r ∈ get_all_contacts im ii limit offset (some s))
    (hjid : r.jid = jid₁)
    (habsent : ∀ c ∈ s.contacts, c.jid ≠ jid₂) :
    (∃ d, get_contact jid₁ (some s) = some d ∧ d.jid = jid₁) ∧
    get_contact jid₂ (some s) = none := by
  constructor
  · have hr' : r ∈ s.contacts.map (contactJoinRow s) := by
      simp only [get_all_contacts, contactsQuery] at hr
      exact mem_of_paginate hr
    obtain ⟨c, hc, hrow⟩ := List.mem_map.mp hr'
    have hcjid : c.jid = jid₁ := by
      rw [← hjid, ← hrow]
      simp [contactJoinRow]
    have hex : ∃ x, x ∈ s.contacts ∧ (x.jid == jid₁) = true :=
      ⟨c, hc, by simp [hcjid]⟩
    obtain ⟨c', hfind⟩ :=
      Option.isSome_iff_exists.mp (List.find?_isSome.mpr hex)
    refine ⟨contactDetailRow s c', ?_, ?_⟩
    · simp [get_contact, hfind]
    · have hp := List.find?_some hfind
      have hj : c'.jid = jid₁ := by simpa using hp
      simpa [contactDetailRow] using hj
  · have hfind : s.contacts.find? (fun c => c.jid == jid₂) = none := by
      rw [List.find?_eq_none]
      intro c hcmem
      simpa using habsent c hcmem
    simp [get_contact, hfind]

/-- Witness for C6: the listed record of Alice resolves back to the same
jid, and a fabricated jid resolves to `none`. -/
theorem c6_witness :
    exContactRecord ∈ get_all_contacts true true 10 0 (some exStore) ∧
    (∃ d, get_contact "a@s" (some exStore) = some d ∧ d.jid = "a@s") ∧
    get_contact "z@s" (some exStore) = none := by
  have h := c6_get_contact_consistency exStore true true 10 0 "a@s" "z@s"
    exContactRecord (by decide) (by decide) (by decide)
  exact ⟨by decide, h.1, h.2⟩

/-- C7: the member roster of `get_group_info` with members requested holds
all membership rows of the group — active and departed — ordered active
first, then super-admin, then admin, then ascending join time. -/
theorem c7_group_info_member_roster (s : Store) (jid : String)
    (gd : GroupDetail) (hinfo : get_group_info jid true (some s) = some gd) :
    ∃ ms, gd.members = some ms ∧
      ms.Perm ((allMemberRows s gd.jid).map (memberDetailOf s)) ∧
      ms.Pairwise memberDetailOrdered := by
  rcases hfind : s.groups.find? (fun g0 => g0.jid == jid) with _ | g₀
  · simp [get_group_info, hfind] at hinfo
  · simp only [get_group_info, hfind] at hinfo
    rw [Option.some_inj] at hinfo
    refine ⟨groupInfoMembers s g₀.jid, ?_, ?_, ?_⟩
    · rw [← hinfo]
      simp
    · have hjid : gd.jid = g₀.jid := by rw [← hinfo]
      rw [hjid]
      exact sortBy_perm _ _
    · exact (pairwise_sortBy memberDetailLe_trans memberDetailLe_total _).imp
        memberDetailOrdered_of_le

/-- Witness for C7: the fixture group detail lists both active members and
the departed one, active first. -/
theorem c7_witness :
    get_group_info "g@g.us" true (some exStore) = some exGroupDetail ∧
    (∃ ms, exGroupDetail.members = some ms ∧
      ms.Perm ((allMemberRows exStore exGroupDetail.jid).map
        (memberDetailOf exStore)) ∧
      ms.Pairwise memberDetailOrdered) :=
  ⟨by decide,
    c7_group_info_member_roster exStore "g@g.us" exGroupDetail (by decide)⟩

/-- C8: the member roster attached by `get_all_groups` with members
requested holds exactly the active membership rows, ordered super-admin
first, then admin, then ascending join time — so a super-admin precedes an
admin regardless of join order. -/
theorem c8_group_list_member_roster (s : Store) (limit offset : Nat)
    (g : GroupRecord) (hmem : g ∈ get_all_groups true limit offset (some s)) :
    ∃ ms, g.members = some ms ∧
      ms.Perm ((activeMemberRows s g.jid).map (memberRecordOf s)) ∧
      ms.Pairwise memberListOrdered := by
  have hg' : g ∈ s.groups.map (groupJoinRow s true) := by
    simp only [get_all_groups, groupsQuery] at hmem
    exact mem_of_paginate hmem
  obtain ⟨g₀, hg₀, hrow⟩ := List.mem_map.mp hg'
  have hjid : g.jid = g₀.jid := by
    rw [← hrow]
    simp [groupJoinRow]
  refine ⟨groupListMembers s g₀.jid, ?_, ?_, ?_⟩
  · rw [← hrow]
    simp [groupJoinRow]
  · rw [hjid]
    exact sortBy_perm _ _
  · exact (pairwise_sortBy memberListLe_trans memberListLe_total _).imp
      memberListOrdered_of_le

/-- Witness for C8: the fixture group record lists only the two active
members, the super-admin first although admin A joined earlier. -/
theorem c8_witness :
    exGroupRecord ∈ get_all_groups true 10 0 (some exStore) ∧
    (∃ ms, exGroupRecord.members = some ms ∧
      ms.Perm ((activeMemberRows exStore exGroupRecord.jid).map
        (memberRecordOf exStore)) ∧
      ms.Pairwise memberListOrdered) :=
  ⟨by decide,
    c8_group_list_member_roster exStore 10 0 exGroupRecord (by decide)⟩

/-- C9: every record of `get_topic_alerts` stems from an alert whose keyword
matches an existing tracked topic and whose chat exists, carries the
requested acknowledgement flag, and the result is ordered by detection time
descending with at most `limit` records. -/
theorem c9_topic_alerts (s : Store) (ack : Bool) (limit : Nat)
    (a : AlertRecord) (ha : a ∈ get_topic_alerts ack limit (some s)) :
    (∃ it, it ∈ s.interesting_topics ∧ it.keyword = a.topic_keyword) ∧
    (∃ ch, ch ∈ s.chats ∧ ch.jid = a.chat_jid) ∧
    a.acknowledged = ack ∧
    (get_topic_alerts ack limit (some s)).Pairwise
      (fun x y => y.detected_at ≤ x.detected_at) ∧
    (get_topic_alerts ack limit (some s)).length ≤ limit := by
  have ha' : a ∈ (s.topic_alerts.filterMap (alertJoinRow s)).filter
      (fun x => x.acknowledged == ack) := by
    simp only [get_topic_alerts, alertsQuery] at ha
    exact mem_sortBy.mp (List.take_subset _ _ ha)
  rw [List.mem_filter] at ha'
  obtain ⟨hjoin, hack⟩ := ha'
  obtain ⟨ta, hta, hrow⟩ := List.mem_filterMap.mp hjoin
  rcases hit : s.interesting_topics.find?
      (fun it => it.keyword == ta.topic_keyword) with _ | it <;>
    rcases hch : s.chats.find? (fun c => c.jid == ta.chat_jid) with _ | ch <;>
    simp [alertJoinRow, hit, hch] at hrow
  have hkw : a.topic_keyword = ta.topic_keyword := by rw [← hrow]
  have hcj : a.chat_jid = ta.chat_jid := by rw [← hrow]
  refine ⟨⟨it, List.mem_of_find?_eq_some hit, ?_⟩,
    ⟨ch, List.mem_of_find?_eq_some hch, ?_⟩, by simpa using hack, ?_, ?_⟩
  · rw [hkw]
    simpa using List.find?_some hit
  · rw [hcj]
    simpa using List.find?_some hch
  · simp only [get_topic_alerts, alertsQuery]
    refine ((pairwise_sortBy detectedDesc_trans detectedDesc_total _).sublist
      (List.take_sublist _ _)).imp ?_
    intro x y h
    simpa [detectedDesc] using h
  · simp only [get_topic_alerts, alertsQuery]
    rw [List.length_take]
    exact Nat.min_le_left _ _

/-- Witness for C9: the only surviving fixture alert is the unacknowledged
`budget` mention in the chat of Alice. -/
theorem c9_witness :
    exAlertRecord ∈ get_topic_alerts false 10 (some exStore) ∧
    exAlertRecord.acknowledged = false := by
  have h := c9_topic_alerts exStore false 10 exAlertRecord (by decide)
  exact ⟨by decide, h.2.2.1⟩

end WhatsappMCP
